import Mathlib

/-!
Verification development for the text-processing core of SCP-079-WATCH
(src/plugins/functions/etc.py).  Strings are modelled as lists of Unicode
scalar values (one Lean Char per Python character).  External collaborators
that the source reads but that are not part of the provided sources -- the
glovar configuration sets (emoji_set, lang_protect, lang_bio, lang_name,
lang_sticker, lang_text, normalize, the locale dict), the Python built-ins
isprintable and the whitespace class used by str.strip, and the third-party
detector libraries (langdetect.detect, TextBlob.detect_language,
guess_language) and normalization libraries (unicodedata.normalize, OpenCC)
-- are passed in explicitly as environment parameters: functions Char to Bool
for character classes, and fallible calls as functions returning Option
(none models a raised exception).  Every theorem quantifies over these
environments, so each claim is settled for every possible behaviour of the
collaborators, exactly as the claims themselves quantify over protected and
defaults sets and over inputs.
-/

namespace Watch

/-- A Python string: a list of Unicode scalar values. -/
abbrev Str := List Char

/-- Python str.strip() with an explicit whitespace class p: remove leading
and trailing characters satisfying p. -/
def pyStrip (p : Char → Bool) (s : Str) : Str :=
  ((s.dropWhile p).reverse.dropWhile p).reverse

/-- Python string repetition s * k. -/
def pyRepeat (s : Str) (k : Nat) : Str := (List.replicate k s).flatten

/-- The chinese_symbols string of get_lang (etc.py line 278). -/
def chinese_symbols : Str :=
  "～！、，。？￥…×—·．：；“”‘’（）〈〉《》「」『』【】〔〕".toList

/-- The english_symbols string of get_lang (etc.py line 279):
backquote ~!@#$%^&*()-=_+[]backslash braces |;singlequote:doublequote,./<>?
written with character codes where a literal would clash with lexical
conventions. -/
def english_symbols : Str :=
  [Char.ofNat 96, '~', '!', '@', '#', '$', '%', '^', '&', '*', '(', ')',
   '-', '=', '_', '+', '[', ']', Char.ofNat 92, Char.ofNat 123,
   Char.ofNat 125, '|', ';', Char.ofNat 39, ':', Char.ofNat 34, ',', '.',
   '/', '<', '>', '?']

/-- The special_symbols string of get_lang (etc.py line 280). -/
def special_symbols : Str := ['£']

/-- symbols = chinese_symbols + english_symbols + special_symbols
(etc.py line 281). -/
def symbols : Str := chinese_symbols ++ english_symbols ++ special_symbols

/-- Environment of get_lang: the glovar configuration sets, the Python
character-class built-ins, and the three third-party detector calls.
A detector returning none models the library call raising an exception. -/
structure LangEnv where
  emoji_set : Str
  lang_protect : List Str
  lang_bio : List Str
  lang_name : List Str
  lang_sticker : List Str
  lang_text : List Str
  isprintable : Char → Bool
  isspace : Char → Bool
  detect : Str → Option Str
  textblob : Str → Option Str
  guess : Str → Option Str

/-- lang_default = glovar.lang_bio | glovar.lang_name | glovar.lang_sticker
| glovar.lang_text (etc.py line 306); set union modelled as list append
(only membership is ever used). -/
def lang_default (env : LangEnv) : List Str :=
  env.lang_bio ++ env.lang_name ++ env.lang_sticker ++ env.lang_text

/-- The sentinel guess_language returns for indeterminate input. -/
def unknownSentinel : Str := "UNKNOWN".toList

/-- get_lang_langdetect (etc.py lines 336-348): call detect; on exception
the result variable keeps its initial value, the empty string; an empty or
protected result is mapped to the empty string. -/
def get_lang_langdetect (env : LangEnv) (text : Str) : Str :=
  match env.detect text with
  | none => []
  | some r => if r = [] ∨ r ∈ env.lang_protect then [] else r

/-- get_lang_textblob (etc.py lines 351-364): same shape as
get_lang_langdetect, over the TextBlob detector. -/
def get_lang_textblob (env : LangEnv) (text : Str) : Str :=
  match env.textblob text with
  | none => []
  | some r => if r = [] ∨ r ∈ env.lang_protect then [] else r

/-- get_lang_guess (etc.py lines 321-333): call guess_language; an empty
result, or a result other than the sentinel UNKNOWN that lies in
lang_protect, is mapped to the empty string; note that the sentinel itself
is exempted from the protected-set check and is returned unchanged. -/
def get_lang_guess (env : LangEnv) (text : Str) : Str :=
  match env.guess text with
  | none => []
  | some r =>
      if r = [] ∨ (r ≠ unknownSentinel ∧ r ∈ env.lang_protect) then [] else r

/-- Strip symbols and emoji (etc.py line 282). -/
def symStrip (env : LangEnv) (text : Str) : Str :=
  text.filter (fun t => !(symbols.contains t) && !(env.emoji_set.contains t))

/-- The pre-processing of get_lang (etc.py lines 277-295): strip symbols and
emoji; if shorter than 20 characters, keep only printable characters, return
the empty string (none) if blank, and tile the text 20 div len + 1 times;
finally return none if the text is blank.  The some value is the text handed
to the detectors. -/
def proc (env : LangEnv) (text : Str) : Option Str :=
  let text1 := symStrip env text
  let step :=
    if text1.length < 20 then
      let text2 := text1.filter env.isprintable
      if pyStrip env.isspace text2 = [] then none
      else some (pyRepeat text2 (20 / text2.length + 1))
    else some text1
  match step with
  | none => none
  | some t => if pyStrip env.isspace t = [] then none else some t

/-- The detection cascade of get_lang (etc.py lines 297-314) on the
pre-processed text: primary langdetect result, textblob recheck (computed
only when the primary succeeded, mirroring the source), the reconciliation
condition, and the guess fallback. -/
def consensus (env : LangEnv) (t : Str) : Str :=
  let result := get_lang_langdetect env t
  let recheck := if result ≠ [] then get_lang_textblob env t else []
  if result ≠ [] ∧ recheck ≠ [] ∧
      (result = recheck ∨ recheck ∉ lang_default env) then recheck
  else if result ≠ [] then []
  else get_lang_guess env t

/-- get_lang (etc.py lines 272-318): pre-process, then run the cascade.
All steps of the body are total in this model (the detector calls catch
their own exceptions), so the outer exception handler of the source is
unreachable. -/
def get_lang (env : LangEnv) (text : Str) : Str :=
  match proc env text with
  | none => []
  | some t => consensus env t

/-- Environment of t2t: the global normalization switch glovar.normalize,
whether the active locale tag contains Hans, the two substitution tables
spc_dict and spe_dict read through dict.get(t, t) (a character maps to a
replacement string, by default itself), the two fallible library calls
unicodedata.normalize NFKC and the OpenCC converter (none models a raised
exception), and the Python character classes isprintable and the Unicode
decimal-digit class matched by the regex class d. -/
structure T2TEnv where
  normalize : Bool
  hans : Bool
  spc : Char → Str
  spe : Char → Str
  nfkc : Str → Option Str
  convert : Str → Option Str
  isprintable : Char → Bool
  isdigit : Char → Bool

/-- The punctuation kept by the pure filter of t2t (etc.py line 663):
period comma colon singlequote doublequote ?!~;() and the full-width
。，？！～ plus @ and the curly double quotes. -/
def purePunct : Str :=
  ['.', ',', ':', Char.ofNat 39, Char.ofNat 34, '?', '!', '~', ';', '(',
   ')', '。', '，', '？', '！', '～', '@', '“', '”']

/-- The character class kept by the pure filter regex of t2t (etc.py line
663): Unicode decimal digits, ASCII letters, the CJK range 4E00-9FA5, and
purePunct. -/
def pureKeep (env : T2TEnv) (c : Char) : Bool :=
  env.isdigit c || (('a' ≤ c && c ≤ 'z') || ('A' ≤ c && c ≤ 'Z')) ||
    (0x4E00 ≤ c.toNat && c.toNat ≤ 0x9FA5) || purePunct.contains c

/-- t2t (etc.py lines 642-667).  The body runs under one exception handler
whose result variable is updated step by step; if a fallible step raises,
the function returns the value the result variable held at that moment.
This is modelled by Except: error carries the partial result returned when
the step raised.  The fallible steps are the two library calls (NFKC
normalization and OpenCC conversion); the substitution joins and the two
filters are pure Python expressions over existing data and cannot raise. -/
def t2t (env : T2TEnv) (text : Str) (normal printable pure : Bool) : Str :=
  if text = [] then [] else
  let step1 : Except Str Str :=
    if env.normalize && normal then
      let subbed := (text.flatMap env.spc).flatMap env.spe
      match env.nfkc subbed with
      | some r => Except.ok r
      | none => Except.error subbed
    else Except.ok text
  match step1 with
  | Except.error r => r
  | Except.ok r1 =>
    let step2 : Except Str Str :=
      if env.normalize && normal && env.hans then
        match env.convert r1 with
        | some r => Except.ok r
        | none => Except.error r1
      else Except.ok r1
    match step2 with
    | Except.error r => r
    | Except.ok r2 =>
      let r3 :=
        if printable then
          r2.filter (fun t => env.isprintable t || (t == '\n' || t == '\r' || t == '\t'))
        else r2
      if pure then r3.filter (pureKeep env) else r3

/-- The fields of the record returned by get_report_record (etc.py lines
464-483); the source key from is spelled fromName here because from is a
reserved word in Lean. -/
inductive RField where
  | project | origin | status | uid | level | rule | type | game | lang
  | length | freq | score | bio | name | fromName | contact | more | unknown
deriving DecidableEq

/-- The label table of get_report_record: the localized label string for
each lang(...) key the source matches against, plus the shared colon
separator.  The glovar.lang locale dict is external configuration, so the
labels are parameters. -/
structure RecEnv where
  project : Str
  project_origin : Str
  status : Str
  user_id : Str
  level : Str
  rule : Str
  message_type : Str
  message_game : Str
  message_lang : Str
  message_len : Str
  message_freq : Str
  user_score : Str
  user_bio : Str
  user_name : Str
  from_name : Str
  contact : Str
  more : Str
  colon : Str

/-- The substring of s after the last occurrence of sep, or s itself when
sep does not occur: the value of the Python expression
s.split(sep)[-1] (etc.py line 527) for non-empty sep. -/
def afterLast (sep s : Str) : Str :=
  match ((List.range (s.length + 1)).filter
      (fun i => sep.isPrefixOf (s.drop i))).getLast? with
  | some i => s.drop (i + sep.length)
  | none => s

/-- The elif chain of get_report_record (etc.py lines 490-525): each line is
tested, in source order, for starting with a label followed by the colon
separator; the first match decides the field, otherwise unknown.  The
source builds a regex from the label anchored at line start; the label
strings are assumed free of regex metacharacters, so the test is a literal
prefix test. -/
def classify (env : RecEnv) (r : Str) : RField :=
  if (env.project ++ env.colon).isPrefixOf r then .project
  else if (env.project_origin ++ env.colon).isPrefixOf r then .origin
  else if (env.status ++ env.colon).isPrefixOf r then .status
  else if (env.user_id ++ env.colon).isPrefixOf r then .uid
  else if (env.level ++ env.colon).isPrefixOf r then .level
  else if (env.rule ++ env.colon).isPrefixOf r then .rule
  else if (env.message_type ++ env.colon).isPrefixOf r then .type
  else if (env.message_game ++ env.colon).isPrefixOf r then .game
  else if (env.message_lang ++ env.colon).isPrefixOf r then .lang
  else if (env.message_len ++ env.colon).isPrefixOf r then .length
  else if (env.message_freq ++ env.colon).isPrefixOf r then .freq
  else if (env.user_score ++ env.colon).isPrefixOf r then .score
  else if (env.user_bio ++ env.colon).isPrefixOf r then .bio
  else if (env.user_name ++ env.colon).isPrefixOf r then .name
  else if (env.from_name ++ env.colon).isPrefixOf r then .fromName
  else if (env.contact ++ env.colon).isPrefixOf r then .contact
  else if (env.more ++ env.colon).isPrefixOf r then .more
  else .unknown

/-- Assignment record[record_type] = value (etc.py line 527): the record is
a total map from fields to strings, updated at one key. -/
def setField (rec : RField → Str) (f : RField) (v : Str) : RField → Str :=
  fun g => if g = f then v else rec g

/-- get_report_record (etc.py lines 462-531): every field starts empty; an
empty message text returns the empty record; otherwise the text is split on
newline and each line, in order, overwrites the field it classifies to with
the substring after the last colon separator in the line. -/
def get_report_record (env : RecEnv) (text : Str) : RField → Str :=
  if text = [] then (fun _ => []) else
  (text.splitOn '\n').foldl
    (fun rec r => setField rec (classify env r) (afterLast env.colon r))
    (fun _ => [])

/-- The value the last line classified to f contributes, if any: the
specification-side characterization of last-match-wins used by the C6
theorem. -/
def lastMatch (env : RecEnv) (f : RField) : List Str → Option Str
  | [] => none
  | r :: ls =>
    match lastMatch env f ls with
    | some v => some v
    | none =>
      if classify env r = f then some (afterLast env.colon r) else none

/-- A UTF-16 code unit that stands alone for a BMP scalar: outside the
surrogate range and below 2 to the 16. -/
def isBMPUnit (u : Nat) : Bool := decide (u < 0xD800 ∨ (0xDFFF < u ∧ u < 0x10000))

/-- A high (leading) surrogate unit. -/
def isHighSur (u : Nat) : Bool := decide (0xD800 ≤ u ∧ u < 0xDC00)

/-- A low (trailing) surrogate unit. -/
def isLowSur (u : Nat) : Bool := decide (0xDC00 ≤ u ∧ u ≤ 0xDFFF)

/-- Python str.encode(utf-16-le) viewed as the list of 16-bit code units:
a BMP scalar yields one unit, an astral scalar a surrogate pair. -/
def utf16Encode : Str → List Nat
  | [] => []
  | c :: cs =>
    (if c.toNat < 0x10000 then [c.toNat]
     else [0xD800 + (c.toNat - 0x10000) / 0x400,
           0xDC00 + (c.toNat - 0x10000) % 0x400]) ++ utf16Encode cs

/-- Python bytes.decode(utf-16-le) (strict) on a list of 16-bit code units:
a lone or ill-ordered surrogate unit is a decoding error (none), which in
the source raises UnicodeDecodeError. -/
def utf16Decode : List Nat → Option Str
  | [] => some []
  | u :: rest =>
    if isBMPUnit u then
      (utf16Decode rest).map (fun cs => Char.ofNat u :: cs)
    else if isHighSur u then
      match rest with
      | [] => none
      | v :: rest2 =>
        if isLowSur v then
          (utf16Decode rest2).map
            (fun cs => Char.ofNat (0x10000 + (u - 0xD800) * 0x400 + (v - 0xDC00)) :: cs)
        else none
    else none

/-- get_entity_text (etc.py lines 177-193) on the already-assembled message
text: return empty for empty text; otherwise encode to UTF-16 code units,
slice offset * 2 to (offset + length) * 2 bytes -- at unit granularity,
drop offset units and take length units -- and decode; a decoding error is
caught and the initial empty result is returned. -/
def get_entity_text (text : Str) (offset length : Nat) : Str :=
  if text = [] then [] else
  match utf16Decode (((utf16Encode text).drop offset).take length) with
  | some r => r
  | none => []

/-! ## Helper lemmas -/

/-- Python not s.strip() is equivalent to every character being whitespace. -/
lemma pyStrip_eq_nil_iff (p : Char → Bool) (s : Str) :
    pyStrip p s = [] ↔ s.all p = true := by
  unfold pyStrip
  rw [List.reverse_eq_nil_iff, List.dropWhile_eq_nil_iff, List.all_eq_true]
  constructor
  · intro hall x hx
    by_cases hxd : x ∈ s.dropWhile p
    · exact hall x (List.mem_reverse.mpr hxd)
    · have hxt : x ∈ s.takeWhile p := by
        have hsplit := List.takeWhile_append_dropWhile p s
        rw [← hsplit] at hx
        rcases List.mem_append.mp hx with h1 | h2
        · exact h1
        · exact absurd h2 hxd
      exact List.mem_takeWhile_imp hxt
  · intro hall x hx
    exact hall x ((List.dropWhile_sublist p).subset (List.mem_reverse.mp hx))

lemma pyRepeat_succ_eq (s : Str) (k : Nat) :
    pyRepeat s (k + 1) = s ++ pyRepeat s k := by
  simp [pyRepeat, List.replicate_succ]

lemma pyRepeat_all (p : Char → Bool) (s : Str) (k : Nat) :
    (pyRepeat s (k + 1)).all p = s.all p := by
  induction k with
  | zero => simp [pyRepeat]
  | succ n ih => rw [pyRepeat_succ_eq, List.all_append, ih, Bool.and_self]

/-- Tiling a non-blank text a positive number of times keeps it non-blank. -/
lemma pyStrip_pyRepeat_ne_nil (p : Char → Bool) (s : Str) (k : Nat)
    (h : pyStrip p s ≠ []) : pyStrip p (pyRepeat s (k + 1)) ≠ [] := by
  intro hc
  exact h ((pyStrip_eq_nil_iff p s).mpr
    (by rw [← pyRepeat_all p s k]; exact (pyStrip_eq_nil_iff _ _).mp hc))

/-- The langdetect wrapper never returns a protected code. -/
lemma get_lang_langdetect_cases (env : LangEnv) (t : Str) :
    get_lang_langdetect env t = [] ∨
      get_lang_langdetect env t ∉ env.lang_protect := by
  cases hd : env.detect t with
  | none => exact Or.inl (by unfold get_lang_langdetect; rw [hd])
  | some r =>
    have he : get_lang_langdetect env t =
        if r = [] ∨ r ∈ env.lang_protect then [] else r := by
      unfold get_lang_langdetect; rw [hd]
    by_cases hr : r = [] ∨ r ∈ env.lang_protect
    · rw [he, if_pos hr]; exact Or.inl rfl
    · rw [he, if_neg hr]; push_neg at hr; exact Or.inr hr.2

/-- The textblob wrapper never returns a protected code. -/
lemma get_lang_textblob_cases (env : LangEnv) (t : Str) :
    get_lang_textblob env t = [] ∨
      get_lang_textblob env t ∉ env.lang_protect := by
  cases hd : env.textblob t with
  | none => exact Or.inl (by unfold get_lang_textblob; rw [hd])
  | some r =>
    have he : get_lang_textblob env t =
        if r = [] ∨ r ∈ env.lang_protect then [] else r := by
      unfold get_lang_textblob; rw [hd]
    by_cases hr : r = [] ∨ r ∈ env.lang_protect
    · rw [he, if_pos hr]; exact Or.inl rfl
    · rw [he, if_neg hr]; push_neg at hr; exact Or.inr hr.2

/-- The guess wrapper returns the empty string, the sentinel UNKNOWN, or a
code outside the protected set. -/
lemma get_lang_guess_cases (env : LangEnv) (t : Str) :
    get_lang_guess env t = [] ∨ get_lang_guess env t = unknownSentinel ∨
      get_lang_guess env t ∉ env.lang_protect := by
  cases hd : env.guess t with
  | none => exact Or.inl (by unfold get_lang_guess; rw [hd])
  | some r =>
    have he : get_lang_guess env t =
        if r = [] ∨ (r ≠ unknownSentinel ∧ r ∈ env.lang_protect)
        then [] else r := by
      unfold get_lang_guess; rw [hd]
    by_cases hr : r = [] ∨ (r ≠ unknownSentinel ∧ r ∈ env.lang_protect)
    · rw [he, if_pos hr]; exact Or.inl rfl
    · rw [he, if_neg hr]; push_neg at hr
      by_cases hu : r = unknownSentinel
      · exact Or.inr (Or.inl hu)
      · exact Or.inr (Or.inr (hr.2 hu))

/-- Case normal form of the cascade: guess fallback when the primary is
empty, otherwise the reconciliation test on the textblob recheck. -/
lemma consensus_eq (env : LangEnv) (t : Str) :
    consensus env t =
      if get_lang_langdetect env t = [] then get_lang_guess env t
      else if get_lang_textblob env t ≠ [] ∧
          (get_lang_langdetect env t = get_lang_textblob env t ∨
            get_lang_textblob env t ∉ lang_default env)
        then get_lang_textblob env t
        else [] := by
  simp only [consensus]
  by_cases hr : get_lang_langdetect env t = []
  · simp [hr]
  · simp [hr]

/-- get_lang reduced by a successful pre-processing step. -/
lemma get_lang_of_proc (env : LangEnv) (text t : Str)
    (h : proc env text = some t) : get_lang env text = consensus env t := by
  unfold get_lang
  rw [h]

/-- get_lang reduced by a failing pre-processing step. -/
lemma get_lang_of_proc_none (env : LangEnv) (text : Str)
    (h : proc env text = none) : get_lang env text = [] := by
  unfold get_lang
  rw [h]

/-! ## Claim theorems -/

/-- Sample environments and inputs used by witnesses and counterexamples. -/
def envC1 : LangEnv := {
  emoji_set := [], lang_protect := [unknownSentinel],
  lang_bio := [], lang_name := [], lang_sticker := [], lang_text := [],
  isprintable := fun _ => true,
  isspace := fun c => c == ' ',
  detect := fun _ => none, textblob := fun _ => none,
  guess := fun _ => some unknownSentinel }

def envW1 : LangEnv := { envC1 with lang_protect := ["ar".toList] }

def envC2 : LangEnv := { envC1 with lang_protect := ["sr".toList] }

def envW3 : LangEnv := { envC1 with
  lang_protect := [],
  lang_text := ["en".toList, "fr".toList],
  detect := fun _ => some "en".toList,
  textblob := fun _ => some "fr".toList,
  guess := fun _ => none }

def env4 : LangEnv := { envC1 with lang_protect := [], guess := fun _ => none }

def ctext : Str := "abcdefghijklmnopqrstu".toList

def s10 : Str := "abcdefghij".toList

/-- Claim C1, as frozen, is false on the code: with the non-empty protected
set containing exactly the guesser sentinel UNKNOWN, and detectors for which
the primary produces nothing and the guesser reports its sentinel, get_lang
returns the non-empty string UNKNOWN, which is a member of the protected
set, because get_lang_guess exempts the sentinel from the protected-set
check (etc.py line 328). -/
theorem c1_counterexample :
    envC1.lang_protect ≠ [] ∧ get_lang envC1 ctext ≠ [] ∧
      get_lang envC1 ctext ∈ envC1.lang_protect := by decide

/-- Claim C1 amended: for every input, every detector behaviour, and every
protected set that does not contain the sentinel UNKNOWN, get_lang either
returns the empty string or returns a string that is not a member of the
protected set, on every path of the cascade. -/
theorem c1_protected_safe (env : LangEnv) (text : Str)
    (h : unknownSentinel ∉ env.lang_protect) :
    get_lang env text = [] ∨ get_lang env text ∉ env.lang_protect := by
  cases hp : proc env text with
  | none => exact Or.inl (get_lang_of_proc_none env text hp)
  | some t =>
    rw [get_lang_of_proc env text t hp, consensus_eq]
    by_cases hr : get_lang_langdetect env t = []
    · rw [if_pos hr]
      rcases get_lang_guess_cases env t with hg | hg | hg
      · exact Or.inl hg
      · exact Or.inr (hg ▸ h)
      · exact Or.inr hg
    · rw [if_neg hr]
      by_cases hcd : get_lang_textblob env t ≠ [] ∧
          (get_lang_langdetect env t = get_lang_textblob env t ∨
            get_lang_textblob env t ∉ lang_default env)
      · rw [if_pos hcd]
        rcases get_lang_textblob_cases env t with hb | hb
        · exact absurd hb hcd.1
        · exact Or.inr hb
      · rw [if_neg hcd]; exact Or.inl rfl

/-- Concrete instance of the amended claim C1. -/
theorem c1_protected_safe_witness :
    unknownSentinel ∉ envW1.lang_protect ∧
      (get_lang envW1 ctext = [] ∨ get_lang envW1 ctext ∉ envW1.lang_protect) :=
  ⟨by decide, c1_protected_safe envW1 ctext (by decide)⟩

/-- Claim C2, as frozen, is false on the code: when the fallback is taken
and the guesser reports its indeterminate sentinel UNKNOWN, get_lang returns
that very sentinel rather than treating it as a non-match, because the test
in get_lang_guess (etc.py line 328) exempts UNKNOWN from the discard. -/
theorem c2_counterexample :
    envC2.guess ctext = some unknownSentinel ∧
      get_lang envC2 ctext = unknownSentinel := by decide

/-- Claim C2 amended: in the fallback step, the sentinel UNKNOWN is exempt
from the protected-set check and is returned as-is by get_lang; a guesser
result other than the sentinel that is a member of the protected set is
discarded, yielding the empty string. -/
theorem c2_guess_fallback (env : LangEnv) (text t : Str)
    (h1 : proc env text = some t)
    (h2 : get_lang_langdetect env t = []) :
    (env.guess t = some unknownSentinel →
      get_lang env text = unknownSentinel) ∧
    (∀ r, env.guess t = some r → r ≠ [] → r ≠ unknownSentinel →
      r ∈ env.lang_protect → get_lang env text = []) := by
  have hc : get_lang env text = get_lang_guess env t := by
    rw [get_lang_of_proc env text t h1, consensus_eq, if_pos h2]
  constructor
  · intro hg
    have he : get_lang_guess env t =
        if unknownSentinel = [] ∨
            (unknownSentinel ≠ unknownSentinel ∧
              unknownSentinel ∈ env.lang_protect)
        then [] else unknownSentinel := by
      unfold get_lang_guess; rw [hg]
    rw [hc, he, if_neg]
    rintro (habs | ⟨hne, _⟩)
    · exact absurd habs (by decide)
    · exact hne rfl
  · intro r hg hne hnu hp
    have he : get_lang_guess env t =
        if r = [] ∨ (r ≠ unknownSentinel ∧ r ∈ env.lang_protect)
        then [] else r := by
      unfold get_lang_guess; rw [hg]
    rw [hc, he, if_pos (Or.inr ⟨hnu, hp⟩)]

/-- Concrete instance of the amended claim C2. -/
theorem c2_guess_fallback_witness :
    (proc envC2 ctext = some ctext ∧
      get_lang_langdetect envC2 ctext = []) ∧
    ((envC2.guess ctext = some unknownSentinel →
        get_lang envC2 ctext = unknownSentinel) ∧
      (∀ r, envC2.guess ctext = some r → r ≠ [] → r ≠ unknownSentinel →
        r ∈ envC2.lang_protect → get_lang envC2 ctext = [])) :=
  ⟨⟨by decide, by decide⟩,
    c2_guess_fallback envC2 ctext ctext (by decide) (by decide)⟩

/-- Claim C3: once pre-processing succeeds, if both the primary result and
the textblob recheck are non-empty then get_lang returns the recheck exactly
when it equals the primary result or lies outside the defaults set, and the
empty string otherwise; and a non-empty primary with an empty recheck also
yields the empty string. -/
theorem c3_reconciliation (env : LangEnv) (text t : Str)
    (h : proc env text = some t) :
    (get_lang_langdetect env t ≠ [] → get_lang_textblob env t ≠ [] →
      get_lang env text =
        if get_lang_langdetect env t = get_lang_textblob env t ∨
            get_lang_textblob env t ∉ lang_default env
        then get_lang_textblob env t else []) ∧
    (get_lang_langdetect env t ≠ [] → get_lang_textblob env t = [] →
      get_lang env text = []) := by
  rw [get_lang_of_proc env text t h, consensus_eq]
  constructor
  · intro hr hcb
    rw [if_neg hr]
    by_cases hcond : get_lang_langdetect env t = get_lang_textblob env t ∨
        get_lang_textblob env t ∉ lang_default env
    · rw [if_pos ⟨hcb, hcond⟩, if_pos hcond]
    · rw [if_neg (fun hand => hcond hand.2), if_neg hcond]
  · intro hr hcb
    rw [if_neg hr, if_neg (fun hand => hand.1 hcb)]

/-- Concrete instance of claim C3, reproducing the worked example of the
specification: primary en, recheck fr, defaults containing en and fr, so
the acceptance condition fails and get_lang returns the empty string. -/
theorem c3_reconciliation_witness : get_lang envW3 ctext = [] :=
  ((c3_reconciliation envW3 ctext ctext (by decide)).1
    (by decide) (by decide)).trans (by decide)

/-- Claim C4, as frozen, is false on the code: on a ten-character stripped
text the code tiles 20 div 10 + 1 = 3 times (etc.py line 291), while
ceil(20 / 10) = 2; the text handed to the detectors is three copies, not
two. -/
theorem c4_counterexample :
    (symStrip env4 s10).length < 20 ∧
    (symStrip env4 s10).filter env4.isprintable = s10 ∧
    pyStrip env4.isspace s10 ≠ [] ∧
    proc env4 s10 = some (pyRepeat s10 3) ∧
    proc env4 s10 ≠ some (pyRepeat s10 2) := by decide

/-- Claim C4 amended: when the symbol-stripped text is shorter than 20 and
the printable-stripped text is non-blank, the text passed to the detectors
is the printable-stripped text tiled 20 div len + 1 times, which equals
ceil(20 / len) except when len divides 20, where it is one more; when the
symbol-stripped text has length at least 20, the tiling step does not run
and the text is unchanged. -/
theorem c4_tiling (env : LangEnv) (text : Str) :
    ((symStrip env text).length < 20 →
      pyStrip env.isspace ((symStrip env text).filter env.isprintable) ≠ [] →
      proc env text =
        some (pyRepeat ((symStrip env text).filter env.isprintable)
          (20 / ((symStrip env text).filter env.isprintable).length + 1))) ∧
    (20 ≤ (symStrip env text).length →
      proc env text =
        if pyStrip env.isspace (symStrip env text) = [] then none
        else some (symStrip env text)) := by
  constructor
  · intro hlen hne
    simp only [proc]
    rw [if_pos hlen, if_neg hne]
    exact if_neg (pyStrip_pyRepeat_ne_nil env.isspace _ _ hne)
  · intro hlen
    simp only [proc]
    rw [if_neg (by omega : ¬ (symStrip env text).length < 20)]

/-- Concrete instance of the amended claim C4: a two-character text is tiled
20 div 2 + 1 = 11 times. -/
theorem c4_tiling_witness : proc env4 "ab".toList = some (pyRepeat "ab".toList 11) :=
  ((c4_tiling env4 "ab".toList).1 (by decide) (by decide)).trans (by decide)

/-- Sample normalizer environments. -/
def envT : T2TEnv := {
  normalize := false, hans := false,
  spc := fun c => [c], spe := fun c => [c],
  nfkc := fun s => some s, convert := fun s => some s,
  isprintable := fun _ => true, isdigit := fun _ => false }

def env7 : T2TEnv := { envT with
  normalize := true,
  spc := fun c => if c == 'A' then ['B'] else [c],
  nfkc := fun _ => none }

def env7b : T2TEnv := { envT with
  normalize := true, hans := true,
  spc := fun c => if c == 'A' then ['B'] else [c],
  convert := fun _ => none }

/-- Claim C5, as frozen, is false on the code: t2t short-circuits only on
the empty string (if not result, etc.py line 647); a whitespace-only input
such as a single space, with all flags disabled, is returned unchanged and
non-empty. -/
theorem c5_counterexample :
    t2t envT [' '] false false false = [' '] ∧ ([' '] : Str) ≠ [] := by decide

/-- Claim C5 amended: for the empty input string and every combination of
the flags, t2t returns the empty string, short-circuiting the remaining
steps; whitespace-only but non-empty input is not short-circuited. -/
theorem c5_empty (env : T2TEnv) (normal printable pure : Bool) :
    t2t env [] normal printable pure = [] := by
  simp [t2t]

/-- Claim C7, as frozen, is false on the code: when the Unicode-composition
step raises, the exception handler of t2t returns the result variable as
last assigned, the substituted text, which here is the non-empty string B,
not the empty string. -/
theorem c7_counterexample :
    env7.nfkc (((['A'] : Str).flatMap env7.spc).flatMap env7.spe) = none ∧
    t2t env7 ['A'] true false false = ['B'] ∧ (['B'] : Str) ≠ [] := by decide

/-- Claim C7 amended: an internal failure never propagates out of t2t, but
the returned value is the text as transformed by the steps already
completed, not the empty string.  The model has exactly two fallible steps,
and both cases are covered: if the Unicode-composition step fails on the
substituted text, t2t returns that substituted text; and if composition
succeeds but the script-conversion step fails on its output, t2t returns
the composed text. -/
theorem c7_partial_result (env : T2TEnv) (text : Str) (printable pure : Bool)
    (h0 : text ≠ []) (h1 : env.normalize = true) :
    (env.nfkc ((text.flatMap env.spc).flatMap env.spe) = none →
      t2t env text true printable pure =
        (text.flatMap env.spc).flatMap env.spe) ∧
    (∀ r1, env.nfkc ((text.flatMap env.spc).flatMap env.spe) = some r1 →
      env.hans = true → env.convert r1 = none →
      t2t env text true printable pure = r1) := by
  constructor
  · intro h2
    simp [t2t, h0, h1, h2]
  · intro r1 h2 h3 h4
    simp [t2t, h0, h1, h2, h3, h4]

/-- Concrete instances of the amended claim C7, one per fallible step: in
env7 the composition step fails and the substituted text B is returned; in
env7b composition succeeds, the conversion step fails, and its input B is
returned. -/
theorem c7_partial_result_witness :
    ((['A'] : Str) ≠ [] ∧ env7.normalize = true ∧ env7b.normalize = true) ∧
    t2t env7 ['A'] true true false = ['B'] ∧
    t2t env7b ['A'] true true false = ['B'] :=
  ⟨⟨by decide, by decide, by decide⟩,
    ((c7_partial_result env7 ['A'] true false (by decide) (by decide)).1
      rfl).trans (by decide),
    (c7_partial_result env7b ['A'] true false (by decide) (by decide)).2
      ['B'] (by decide) rfl rfl⟩

/-- Claim C10: with all three flags disabled, t2t is the identity function,
for every environment, in particular regardless of the global normalization
switch and the active locale. -/
theorem c10_identity (env : T2TEnv) (text : Str) :
    t2t env text false false false = text := by
  by_cases h : text = []
  · simp [t2t, h]
  · simp [t2t, h]

/-- Sequential overwrite characterization of the report fold: the value at
field f is the value of the last line classified to f, or the initial value
when no line is. -/
lemma report_foldl (env : RecEnv) (f : RField) (lines : List Str) :
    ∀ rec0 : RField → Str,
      (lines.foldl
        (fun rec r => setField rec (classify env r) (afterLast env.colon r))
        rec0) f
      = match lastMatch env f lines with
        | some v => v
        | none => rec0 f := by
  induction lines with
  | nil => intro rec0; rfl
  | cons r ls ih =>
    intro rec0
    rw [List.foldl_cons, ih]
    simp only [lastMatch]
    cases hm : lastMatch env f ls with
    | some v => rfl
    | none =>
      by_cases hcf : classify env r = f
      · simp [setField, hcf]
      · simp [setField, hcf, Ne.symm hcf]

/-- Sample label tables. -/
def zlab : Str := "Z".toList

def envR : RecEnv := {
  project := zlab, project_origin := zlab, status := zlab, user_id := zlab,
  level := zlab, rule := zlab, message_type := zlab, message_game := zlab,
  message_lang := zlab, message_len := zlab, message_freq := zlab,
  user_score := zlab, user_bio := zlab, user_name := zlab,
  from_name := zlab, contact := zlab, more := zlab,
  colon := ": ".toList }

def envR2 : RecEnv := { envR with level := "Level".toList }

def rpt : Str := "Level: 3\nLevel: 4".toList

/-- Claim C6, as frozen, is false on the code: a report whose two lines both
match no label leaves only the value of the last unmatched line under the
unknown field (etc.py line 527 overwrites), so the earlier unmatched line is
not captured. -/
theorem c6_counterexample :
    classify envR ['x'] = RField.unknown ∧
    classify envR ['y'] = RField.unknown ∧
    get_report_record envR ['x', '\n', 'y'] RField.unknown = ['y'] ∧
    'x' ∉ get_report_record envR ['x', '\n', 'y'] RField.unknown := by decide

/-- Claim C6 amended: for every non-empty report text and every field,
including unknown, the returned mapping holds exactly one value: the value
derived from the last line classified to that field (sequential overwrite,
not accumulation), and the empty string when no line matches it. -/
theorem c6_last_wins (env : RecEnv) (text : Str) (f : RField)
    (h : text ≠ []) :
    get_report_record env text f =
      (lastMatch env f (text.splitOn '\n')).getD [] := by
  unfold get_report_record
  rw [if_neg h, report_foldl]
  cases lastMatch env f (text.splitOn '\n') <;> rfl

/-- Concrete instance of the amended claim C6: the label Level occurs on two
lines and the later value wins. -/
theorem c6_last_wins_witness :
    rpt ≠ [] ∧ get_report_record envR2 rpt RField.level = ['4'] :=
  ⟨by decide,
    (c6_last_wins envR2 rpt RField.level (by decide)).trans (by decide)⟩

/-- Claim C8: a UTF-16 slice that does not decode, in particular one that
falls in the middle of a surrogate pair, makes get_entity_text return the
empty string; the decoding failure is caught at the function boundary. -/
theorem c8_mid_surrogate (text : Str) (offset length : Nat)
    (h : utf16Decode (((utf16Encode text).drop offset).take length) = none) :
    get_entity_text text offset length = [] := by
  unfold get_entity_text
  by_cases ht : text = []
  · subst ht
    simp [utf16Encode, utf16Decode] at h
  · rw [if_neg ht, h]

/-- Concrete instance of claim C8: slicing the first code unit of an astral
emoji leaves a lone high surrogate, which fails to decode, and extraction
returns the empty string. -/
theorem c8_mid_surrogate_witness :
    utf16Decode (((utf16Encode [Char.ofNat 0x1F600]).drop 0).take 1) = none ∧
    get_entity_text [Char.ofNat 0x1F600] 0 1 = [] :=
  ⟨by decide, c8_mid_surrogate [Char.ofNat 0x1F600] 0 1 (by decide)⟩

/-- Decoding inverts encoding on BMP-only strings. -/
lemma utf16Decode_encode_bmp (s : Str) (h : ∀ c ∈ s, c.toNat < 0x10000) :
    utf16Decode (utf16Encode s) = some s := by
  induction s with
  | nil => rfl
  | cons c cs ih =>
    have hc : c.toNat < 0x10000 := h c (List.mem_cons_self c cs)
    have hcs : ∀ x ∈ cs, x.toNat < 0x10000 :=
      fun x hx => h x (List.mem_cons_of_mem c hx)
    have hv : c.toNat < 0xD800 ∨ (0xDFFF < c.toNat ∧ c.toNat < 0x110000) :=
      c.valid
    have hbmp : isBMPUnit c.toNat = true := by
      simp only [isBMPUnit, decide_eq_true_eq]
      rcases hv with hv | hv
      · exact Or.inl hv
      · exact Or.inr ⟨hv.1, hc⟩
    rw [utf16Encode, if_pos hc]
    show utf16Decode (c.toNat :: utf16Encode cs) = some (c :: cs)
    rw [utf16Decode.eq_def]
    dsimp only
    rw [if_pos hbmp, ih hcs]
    simp [Char.ofNat_toNat]

/-- Claim C9: for a string of BMP-only characters, extracting the full
UTF-16 span through get_entity_text returns the string unchanged. -/
theorem c9_roundtrip (s : Str) (h : ∀ c ∈ s, c.toNat < 0x10000) :
    get_entity_text s 0 (utf16Encode s).length = s := by
  by_cases hs : s = []
  · subst hs; rfl
  · unfold get_entity_text
    rw [if_neg hs, List.drop_zero, List.take_length,
      utf16Decode_encode_bmp s h]

/-- Concrete instance of claim C9. -/
theorem c9_roundtrip_witness :
    (∀ c ∈ ("ab".toList : Str), c.toNat < 0x10000) ∧
    get_entity_text "ab".toList 0 (utf16Encode "ab".toList).length = "ab".toList :=
  ⟨by decide, c9_roundtrip "ab".toList (by decide)⟩

end Watch
